import Mathlib

/-!
Shallow embedding of `src/workers-site/index.js`, a Cloudflare Workers
static-site request handler, together with proofs about its behaviour.

The worker consists of a top-level fetch listener, an async `handleEvent`
function, and a header-decorating function `addCustomHeaders`.  The external
library `@cloudflare/kv-asset-handler` (its `getAssetFromKV` and default
`mapRequestToAsset`) is modelled abstractly as a `Store`: a default
request-to-asset mapper and a fetch function from mapped requests to either a
response or a thrown error.  Machine-level details of the runtime (streams,
actual caching) are outside the model; a `Response` is its status, its
explicitly set headers (in append order), and its body text.
-/

namespace WorkersSite

/-- URL as used by the worker: `new URL(s).origin` plus the path and the query
string.  The string form (`href`, what `req.url` and the coercion of a `URL`
object produce) is the concatenation of the three parts. -/
structure Url where
  origin : String
  path : String
  query : String
deriving DecidableEq

/-- String form of a URL, as produced by coercing a JS `URL` object or reading
`request.url`. -/
def Url.href (u : Url) : String := u.origin ++ u.path ++ u.query

/-- HTTP request: method and URL.  `new Request(url, req)` keeps `req`'s other
fields (here: the method) and replaces the URL. -/
structure Request where
  method : String
  url : Url
deriving DecidableEq

/-- HTTP response: status, explicitly set headers in append order, body text.
Runtime-defaulted headers (e.g. an implicit Content-Type) are outside the
model: `headers` holds exactly the headers set by the program or the store. -/
structure Response where
  status : Nat
  headers : List (String × String)
  body : String
deriving DecidableEq

/-- A thrown JS error, with its `message` property and its `toString()` form. -/
structure JsError where
  message : String
  str : String
deriving DecidableEq

/-- JS `e.message || e.toString()`: the empty string is falsy, so an empty
message falls back to the `toString()` form. -/
def JsError.text (e : JsError) : String :=
  if e.message = "" then e.str else e.message

/-- A fetch event (carries one request). -/
structure Event where
  request : Request
deriving DecidableEq

/-- Abstract model of the `@cloudflare/kv-asset-handler` collaborator:
`defaultMap` is the library's default `mapRequestToAsset`; `fetch` is the KV
lookup behind `getAssetFromKV`, taking the mapped request and the
`bypassCache` flag and either returning a response or throwing an error. -/
structure Store where
  defaultMap : Request → Request
  fetch : Request → Bool → Except JsError Response

/-- Options passed to `getAssetFromKV`: the `mapRequestToAsset` override and
the `cacheControl.bypassCache` flag (absent `cacheControl` means `false`). -/
structure KVOptions where
  mapRequestToAsset : Request → Request
  bypassCache : Bool

/-- Model of the external `getAssetFromKV(event, options)`: apply the
request-to-asset mapping from `options` to the event's request, then perform
the store lookup with the requested cache behaviour. -/
def getAssetFromKV (store : Store) (event : Event) (options : KVOptions) :
    Except JsError Response :=
  store.fetch (options.mapRequestToAsset event.request) options.bypassCache

/-- Embedding of JS `s.endsWith(suffix)`. -/
def endsWithJS (s suffix : String) : Bool :=
  suffix.data.isSuffixOf s.data

/-- Embedding of the regex character class `\S` (any non-whitespace
character). -/
def nonSpace (c : Char) : Bool := !c.isWhitespace

/-- Does `cs` start with the literal pattern `pat` followed by one non-space
character?  (Used for the `\/(js|css|img)\/\S` part of the regex.) -/
def segFollows : List Char → List Char → Bool
  | [], c :: _ => nonSpace c
  | _ :: _, [] => false
  | [], [] => false
  | p :: ps, c :: cc => decide (c = p) && segFollows ps cc

/-- Does `cs` start with `/js/`, `/css/` or `/img/` followed by a non-space
character? -/
def cacheSegAt (cs : List Char) : Bool :=
  segFollows ['/', 'j', 's', '/'] cs ||
  segFollows ['/', 'c', 's', 's', '/'] cs ||
  segFollows ['/', 'i', 'm', 'g', '/'] cs

/-- Scan for a position holding a non-space character directly followed by
`/js/`, `/css/` or `/img/` and a non-space character. -/
def hasCacheSeg : List Char → Bool
  | [] => false
  | c :: rest => (nonSpace c && cacheSegAt rest) || hasCacheSeg rest

/-- Embedding of `new RegExp(/\S+\/(js|css|img)\/\S+/).test(s)`.  The regex is
unanchored, so the test succeeds iff somewhere in `s` a non-space character is
followed by a literal `/js/`, `/css/` or `/img/` and a further non-space
character (a longer `\S+` run always contains such a one-character run). -/
def regexTest (s : String) : Bool := hasCacheSeg s.data

/-- The DEBUG flag of the worker (compile-time constant, shipped as false). -/
def DEBUG : Bool := false

/-- Embedding of `addCustomHeaders(requestURL, response)`.  The source passes
the `URL` object; the regex test coerces it to its full string form
(origin, path and query), so the cache classification sees the whole URL.
Headers are appended in source order; the result is the response with its
headers extended (the source mutates in place). -/
def addCustomHeaders (requestURL : Url) (response : Response) : Response :=
  let headers := response.headers
  let headers :=
    if regexTest requestURL.href then
      headers ++ [("Cache-Control", "public, max-age=31536000, immutable")]
    else
      headers ++ [("Cache-Control", "must-revalidate")]
  let headers := headers ++ [("X-Frame-Options", "DENY")]
  let headers := headers ++ [("X-Content-Type-Options", "nosniff")]
  let headers := headers ++ [("X-XSS-Protection", "1; mode=block")]
  let headers := headers ++ [("Referrer-Policy", "no-referrer")]
  { response with headers := headers }

/-- Embedding of the `options.mapRequestToAsset` override built in
`handleEvent`: first apply the library's default mapper; if the resulting URL
string ends in `/index.html`, build a request for the origin's root
`/index.html` (inheriting the rest of the request); otherwise return the
default mapper's result unchanged. -/
def optionsMapRequestToAsset (store : Store) (req : Request) : Request :=
  let req := store.defaultMap req
  if endsWithJS req.url.href "/index.html" then
    { req with url := ⟨req.url.origin, "/index.html", ""⟩ }
  else
    req

/-- Embedding of the 404-fallback mapping
`(req) => new Request(new URL(req.url).origin + "/404.html", req)`: the
original path and query are discarded and the origin's root `/404.html`
is requested. -/
def notFoundMapRequestToAsset (req : Request) : Request :=
  { req with url := ⟨req.url.origin, "/404.html", ""⟩ }

/-- Embedding of `handleEvent(event)` generalised over the DEBUG flag (the
source reads the constant `DEBUG`; `handleEvent` below instantiates it).
`options.cacheControl = { bypassCache: true }` is set exactly when debug is
on, so the primary fetch's bypass flag equals `debug`.  On primary failure
with debug off, the 404 fallback is fetched with default options (no
override of `cacheControl`, so bypass is false); on its success the source
builds `new Response(notFoundResponse.body, { ...notFoundResponse,
status: 404 })` — spreading a `Response` copies no own enumerable properties
(status/headers are prototype getters), so the init is just `{ status: 404 }`
and no headers carry over.  Any remaining failure returns status 500 with the
primary error's `message || toString()` as body (the inner `catch (e) {}`
shadows and discards the fallback error). -/
def handleEventG (store : Store) (debug : Bool) (event : Event) : Response :=
  let url := event.request.url
  let bypass := debug
  match getAssetFromKV store event ⟨optionsMapRequestToAsset store, bypass⟩ with
  | .ok response => addCustomHeaders url response
  | .error e =>
    if !debug then
      match getAssetFromKV store event ⟨notFoundMapRequestToAsset, false⟩ with
      | .ok notFoundResponse => { status := 404, headers := [], body := notFoundResponse.body }
      | .error _ => { status := 500, headers := [], body := e.text }
    else
      { status := 500, headers := [], body := e.text }

/-- The worker's `handleEvent` as shipped (DEBUG = false). -/
def handleEvent (store : Store) (event : Event) : Response :=
  handleEventG store DEBUG event

/-- Embedding of the top-level `addEventListener('fetch', ...)` wrapper.
`thrown` models a synchronous exception raised while computing
`event.respondWith(handleEvent(event))` (the only thing its `try`/`catch`
can observe: `handleEvent` is async, so its own failures surface as the
response produced inside `handleEvent`, not here).  With DEBUG on the raw
error text is returned with status 500; with DEBUG off the body is the
literal string "Internal Error". -/
def fetchListener (store : Store) (event : Event) (thrown : Option JsError) :
    Response :=
  match thrown with
  | some e =>
    if DEBUG then
      { status := 500, headers := [], body := e.text }
    else
      { status := 500, headers := [], body := "Internal Error" }
  | none => handleEvent store event

/-- The four security headers appended by `addCustomHeaders`, in source
order. -/
def securityHeaders : List (String × String) :=
  [("X-Frame-Options", "DENY"),
   ("X-Content-Type-Options", "nosniff"),
   ("X-XSS-Protection", "1; mode=block"),
   ("Referrer-Policy", "no-referrer")]

/-! Concrete stores and events used by witnesses and counterexamples. -/

/-- A request URL whose path holds no `js`/`css`/`img` segment but whose query
string contains the substring `/js/`. -/
def mainUrl : Url := ⟨"https://example.com", "/about", "?next=/js/app.js"⟩

/-- Event for `mainUrl`. -/
def mainEvent : Event := ⟨⟨"GET", mainUrl⟩⟩

/-- A plain request URL with no query string. -/
def plainUrl : Url := ⟨"https://example.com", "/about", ""⟩

/-- Event for `plainUrl`. -/
def plainEvent : Event := ⟨⟨"GET", plainUrl⟩⟩

/-- Event whose URL path ends in a `js` segment with nothing after the
trailing slash. -/
def trailingEvent : Event := ⟨⟨"GET", ⟨"https://example.com", "/a/js/", ""⟩⟩⟩

/-- A store that serves every lookup with a fixed 200 response carrying no
headers of its own. -/
def okStore : Store :=
  ⟨fun r => r, fun _ _ => .ok ⟨200, [], "asset-body"⟩⟩

/-- A store whose every lookup throws (primary fetch and 404 fallback both
fail). -/
def errStore : Store :=
  ⟨fun r => r, fun _ _ => .error ⟨"boom", "Error: boom"⟩⟩

/-- A store that only holds `/404.html`: the primary lookup throws and the
fallback lookup succeeds. -/
def nfStore : Store :=
  ⟨fun r => r,
   fun r _ =>
     if r.url.path = "/404.html" then .ok ⟨200, [], "custom 404 page"⟩
     else .error ⟨"could not find asset", "KVError"⟩⟩

/-- A store whose default mapper performs the library's directory
normalisation: it appends `index.html` to directory-style paths (ending in
`/`) and leaves other requests alone. -/
def dirStore : Store :=
  ⟨fun r =>
     if endsWithJS r.url.path "/" then
       { r with url := ⟨r.url.origin, r.url.path ++ "index.html", r.url.query⟩ }
     else r,
   fun _ _ => .ok ⟨200, [], "index-body"⟩⟩

/-- A directory-style request, mapped by `dirStore.defaultMap` to
`/docs/index.html`. -/
def dirRequest : Request := ⟨"GET", ⟨"https://example.com", "/docs/", ""⟩⟩

/-! Helper lemmas shared by the claim theorems. -/

/-- Successful decoration appends one Cache-Control header (chosen by the
regex test on the full URL string) and then the four security headers. -/
theorem addCustomHeaders_headers (u : Url) (r : Response) :
    (addCustomHeaders u r).headers =
      r.headers ++
        [("Cache-Control",
          if regexTest u.href then "public, max-age=31536000, immutable"
          else "must-revalidate")] ++ securityHeaders := by
  simp only [addCustomHeaders, securityHeaders]
  split <;> simp

/-- Decoration does not change the response status. -/
theorem addCustomHeaders_status (u : Url) (r : Response) :
    (addCustomHeaders u r).status = r.status := by
  simp only [addCustomHeaders]

/-- When the primary asset fetch succeeds, the handler returns the decorated
store response. -/
theorem handleEvent_ok (store : Store) (event : Event) (resp : Response)
    (h : getAssetFromKV store event ⟨optionsMapRequestToAsset store, DEBUG⟩ = .ok resp) :
    handleEvent store event = addCustomHeaders event.request.url resp := by
  simp only [handleEvent, handleEventG, h]

/-- When the primary fetch throws and the 404 fallback succeeds, the handler
returns status 404 with the fallback body (and no headers carried over, since
spreading a `Response` copies no own properties). -/
theorem handleEvent_err_ok (store : Store) (event : Event) (e : JsError) (nf : Response)
    (h1 : getAssetFromKV store event ⟨optionsMapRequestToAsset store, DEBUG⟩ = .error e)
    (h2 : getAssetFromKV store event ⟨notFoundMapRequestToAsset, false⟩ = .ok nf) :
    handleEvent store event = ⟨404, [], nf.body⟩ := by
  have h1f : getAssetFromKV store event ⟨optionsMapRequestToAsset store, false⟩ = .error e := h1
  simp [handleEvent, handleEventG, DEBUG, h1f, h2]

/-- When the primary fetch and the 404 fallback both throw, the handler
returns status 500 with the primary error's text as body. -/
theorem handleEvent_err_err (store : Store) (event : Event) (e e2 : JsError)
    (h1 : getAssetFromKV store event ⟨optionsMapRequestToAsset store, DEBUG⟩ = .error e)
    (h2 : getAssetFromKV store event ⟨notFoundMapRequestToAsset, false⟩ = .error e2) :
    handleEvent store event = ⟨500, [], e.text⟩ := by
  have h1f : getAssetFromKV store event ⟨optionsMapRequestToAsset store, false⟩ = .error e := h1
  simp [handleEvent, handleEventG, DEBUG, h1f, h2]

/-! Claim theorems. -/

/-- Claim C1, counterexample: the claim says every response carries the four
security headers, but a handler run in which both store lookups throw returns
a 500 response whose header list does not contain `X-Frame-Options: DENY`
(the failure paths never call `addCustomHeaders`). -/
theorem c1_counterexample :
    (handleEvent errStore plainEvent).status = 500 ∧
    ("X-Frame-Options", "DENY") ∉ (handleEvent errStore plainEvent).headers := by
  decide

/-- Claim C1 (amended): whenever the primary asset fetch succeeds, the
response returned by the handler carries the four security headers
`X-Frame-Options: DENY`, `X-Content-Type-Options: nosniff`,
`X-XSS-Protection: 1; mode=block` and `Referrer-Policy: no-referrer` with
exactly these literal values; responses produced on the 404-fallback and 500
paths do not pass through `addCustomHeaders` and so do not receive them. -/
theorem c1_security_headers_on_success (store : Store) (event : Event) (resp : Response)
    (h : getAssetFromKV store event ⟨optionsMapRequestToAsset store, DEBUG⟩ = .ok resp) :
    ("X-Frame-Options", "DENY") ∈ (handleEvent store event).headers ∧
    ("X-Content-Type-Options", "nosniff") ∈ (handleEvent store event).headers ∧
    ("X-XSS-Protection", "1; mode=block") ∈ (handleEvent store event).headers ∧
    ("Referrer-Policy", "no-referrer") ∈ (handleEvent store event).headers := by
  rw [handleEvent_ok store event resp h, addCustomHeaders_headers]
  simp [securityHeaders]

/-- Claim C1, witness: the amended theorem applied to a concrete store that
serves every request. -/
theorem c1_witness :
    ("X-Frame-Options", "DENY") ∈ (handleEvent okStore plainEvent).headers ∧
    ("X-Content-Type-Options", "nosniff") ∈ (handleEvent okStore plainEvent).headers ∧
    ("X-XSS-Protection", "1; mode=block") ∈ (handleEvent okStore plainEvent).headers ∧
    ("Referrer-Policy", "no-referrer") ∈ (handleEvent okStore plainEvent).headers :=
  c1_security_headers_on_success okStore plainEvent ⟨200, [], "asset-body"⟩ rfl

/-- Claim C2, counterexample: with debug disabled (the shipped constant), a
request on which both store lookups throw yields a 500 response whose body is
the raw error message "boom", not the literal string "Internal Error". -/
theorem c2_counterexample :
    DEBUG = false ∧
    (handleEvent errStore plainEvent).status = 500 ∧
    (handleEvent errStore plainEvent).body ≠ "Internal Error" := by
  decide

/-- Claim C2 (amended): with debug disabled, a 500 response produced inside
`handleEvent` (primary fetch and 404 fallback both throw) carries the primary
error's raw text (`e.message || e.toString()`) as its body; the literal body
"Internal Error" is produced only by the top-level fetch listener's catch
block for a synchronous exception.  The raw error message therefore appears
in a 500 body even with the debug flag disabled. -/
theorem c2_error_bodies :
    (∀ (store : Store) (event : Event) (e e2 : JsError),
        getAssetFromKV store event ⟨optionsMapRequestToAsset store, DEBUG⟩ = .error e →
        getAssetFromKV store event ⟨notFoundMapRequestToAsset, false⟩ = .error e2 →
        handleEvent store event = ⟨500, [], e.text⟩) ∧
    (∀ (store : Store) (event : Event) (e : JsError),
        fetchListener store event (some e) = ⟨500, [], "Internal Error"⟩) := by
  constructor
  · intro store event e e2 h1 h2
    exact handleEvent_err_err store event e e2 h1 h2
  · intro store event e
    simp [fetchListener, DEBUG]

/-- Claim C2, witness: the amended theorem applied to a concrete
always-throwing store, and the listener branch at a concrete error. -/
theorem c2_witness :
    handleEvent errStore plainEvent = ⟨500, [], "boom"⟩ ∧
    fetchListener errStore plainEvent (some ⟨"x", "y"⟩) = ⟨500, [], "Internal Error"⟩ :=
  ⟨c2_error_bodies.1 errStore plainEvent ⟨"boom", "Error: boom"⟩ ⟨"boom", "Error: boom"⟩ rfl rfl,
   c2_error_bodies.2 errStore plainEvent ⟨"x", "y"⟩⟩

/-- Claim C3, counterexample: a request whose path `/about` contains no
`js`/`css`/`img` segment but whose query string contains `/js/` is served
with `Cache-Control: public, max-age=31536000, immutable` instead of the
`must-revalidate` the claim requires for such a path — the regex is tested
against the full URL string, query included. -/
theorem c3_counterexample :
    mainEvent.request.url.path = "/about" ∧
    ("Cache-Control", "public, max-age=31536000, immutable") ∈ (handleEvent okStore mainEvent).headers ∧
    ("Cache-Control", "must-revalidate") ∉ (handleEvent okStore mainEvent).headers := by
  decide

/-- Claim C3 (amended): for every successfully served response, the handler
appends exactly one Cache-Control header, whose value is
`public, max-age=31536000, immutable` when the regex
`\S+\/(js|css|img)\/\S+` matches the full URL string (origin, path and
query) and `must-revalidate` otherwise; matching the path alone is not what
the code does (a query-string substring such as `/js/x` also triggers the
immutable value). -/
theorem c3_cache_control (store : Store) (event : Event) (resp : Response)
    (h : getAssetFromKV store event ⟨optionsMapRequestToAsset store, DEBUG⟩ = .ok resp) :
    (handleEvent store event).headers =
      resp.headers ++
        [("Cache-Control",
          if regexTest event.request.url.href then "public, max-age=31536000, immutable"
          else "must-revalidate")] ++ securityHeaders := by
  rw [handleEvent_ok store event resp h, addCustomHeaders_headers]

/-- Claim C3, witness: the amended theorem applied to the concrete
query-string request served by `okStore` (the regex matches, so the immutable
value is appended). -/
theorem c3_witness :
    (handleEvent okStore mainEvent).headers =
      [("Cache-Control", "public, max-age=31536000, immutable")] ++ securityHeaders :=
  c3_cache_control okStore mainEvent ⟨200, [], "asset-body"⟩ rfl

/-- Claim C4: when the primary asset lookup throws and the `/404.html`
fallback lookup succeeds (debug is disabled in the shipped code), the handler
returns status 404 with the fallback asset's body; and the fallback mapping
discards the original path and query, always requesting the origin's root
`/404.html`. -/
theorem c4_not_found_fallback (store : Store) (event : Event) (e : JsError) (nf : Response)
    (h1 : getAssetFromKV store event ⟨optionsMapRequestToAsset store, DEBUG⟩ = .error e)
    (h2 : getAssetFromKV store event ⟨notFoundMapRequestToAsset, false⟩ = .ok nf) :
    (handleEvent store event).status = 404 ∧
    (handleEvent store event).body = nf.body ∧
    ∀ r : Request, notFoundMapRequestToAsset r = { r with url := ⟨r.url.origin, "/404.html", ""⟩ } := by
  rw [handleEvent_err_ok store event e nf h1 h2]
  exact ⟨rfl, rfl, fun r => rfl⟩

/-- Claim C4, witness: the theorem applied to a store holding only
`/404.html`. -/
theorem c4_witness :
    (handleEvent nfStore plainEvent).status = 404 ∧
    (handleEvent nfStore plainEvent).body = "custom 404 page" := by
  have h := c4_not_found_fallback nfStore plainEvent ⟨"could not find asset", "KVError"⟩
    ⟨200, [], "custom 404 page"⟩ rfl rfl
  exact ⟨h.1, h.2.1⟩

/-- Claim C5: when the primary lookup throws and the `/404.html` fallback
lookup also throws, the handler still returns a response, with status 500:
the fallback failure is swallowed by the inner catch and never escapes (the
embedding is a total function, so a response is always produced). -/
theorem c5_fallback_failure_500 (store : Store) (event : Event) (e e2 : JsError)
    (h1 : getAssetFromKV store event ⟨optionsMapRequestToAsset store, DEBUG⟩ = .error e)
    (h2 : getAssetFromKV store event ⟨notFoundMapRequestToAsset, false⟩ = .error e2) :
    (handleEvent store event).status = 500 := by
  rw [handleEvent_err_err store event e e2 h1 h2]

/-- Claim C5, witness: the theorem applied to the always-throwing store. -/
theorem c5_witness : (handleEvent errStore plainEvent).status = 500 :=
  c5_fallback_failure_500 errStore plainEvent ⟨"boom", "Error: boom"⟩ ⟨"boom", "Error: boom"⟩
    rfl rfl

/-- Claim C6: the asset-mapping override first applies the store's default
mapper; when the resulting URL string ends in `/index.html` it returns a
request for the origin's root-level `/index.html` (other request fields
inherited), and otherwise it returns the default mapper's result
unchanged. -/
theorem c6_mapper_override (store : Store) (req : Request) :
    (endsWithJS (store.defaultMap req).url.href "/index.html" = true →
      optionsMapRequestToAsset store req =
        { store.defaultMap req with
            url := ⟨(store.defaultMap req).url.origin, "/index.html", ""⟩ }) ∧
    (endsWithJS (store.defaultMap req).url.href "/index.html" = false →
      optionsMapRequestToAsset store req = store.defaultMap req) := by
  constructor <;> intro h <;> simp [optionsMapRequestToAsset, h]

/-- Claim C6, witness: the rewrite branch on a directory-style request whose
default mapping ends in `/index.html`, and the pass-through branch on a plain
request. -/
theorem c6_witness :
    optionsMapRequestToAsset dirStore dirRequest =
      ⟨"GET", ⟨"https://example.com", "/index.html", ""⟩⟩ ∧
    optionsMapRequestToAsset okStore plainEvent.request = okStore.defaultMap plainEvent.request :=
  ⟨(c6_mapper_override dirStore dirRequest).1 rfl,
   (c6_mapper_override okStore plainEvent.request).2 rfl⟩

/-- Claim C7: for every incoming request the handler returns exactly one
response (the embedding is a total function), and its status is either the
status of a successful store response, or 404, or 500. -/
theorem c7_status_partition (store : Store) (event : Event) :
    (∃ resp : Response,
        getAssetFromKV store event ⟨optionsMapRequestToAsset store, DEBUG⟩ = .ok resp ∧
        (handleEvent store event).status = resp.status) ∨
    (handleEvent store event).status = 404 ∨
    (handleEvent store event).status = 500 := by
  cases h : getAssetFromKV store event ⟨optionsMapRequestToAsset store, DEBUG⟩ with
  | ok resp =>
    exact Or.inl ⟨resp, rfl, by rw [handleEvent_ok store event resp h, addCustomHeaders_status]⟩
  | error e =>
    right
    cases h2 : getAssetFromKV store event ⟨notFoundMapRequestToAsset, false⟩ with
    | ok nf =>
      left
      rw [handleEvent_err_ok store event e nf h h2]
    | error e2 =>
      right
      rw [handleEvent_err_err store event e e2 h h2]

/-- Claim C8: the handler is deterministic given the store's behaviour — two
runs on the same event with stores that agree on every fetch result and on
the default mapper produce responses with identical status and identical
headers. -/
theorem c8_deterministic (s1 s2 : Store) (event : Event)
    (hfetch : ∀ (r : Request) (b : Bool), s1.fetch r b = s2.fetch r b)
    (hmap : s1.defaultMap = s2.defaultMap) :
    (handleEvent s1 event).status = (handleEvent s2 event).status ∧
    (handleEvent s1 event).headers = (handleEvent s2 event).headers := by
  have h : handleEvent s1 event = handleEvent s2 event := by
    simp only [handleEvent, handleEventG, getAssetFromKV, optionsMapRequestToAsset, hmap, hfetch]
  rw [h]
  exact ⟨rfl, rfl⟩

/-- Claim C8, witness: the theorem applied to one concrete store taken twice
(store results trivially unchanged between the two runs). -/
theorem c8_witness :
    (handleEvent okStore plainEvent).status = (handleEvent okStore plainEvent).status ∧
    (handleEvent okStore plainEvent).headers = (handleEvent okStore plainEvent).headers :=
  c8_deterministic okStore okStore plainEvent (fun _ _ => rfl) rfl

/-- Claim C9: the cache classification tests the regex
`\S+\/(js|css|img)\/\S+` against the entire URL string (origin, path and
query), not the path alone: on every successfully served response the
appended Cache-Control value is decided by `regexTest` of the full `href`;
concretely, a path `/about` with query `?next=/js/app.js` receives the
immutable value, while a path `/a/js/` ending in a `js` segment with nothing
after the trailing slash does not. -/
theorem c9_regex_on_full_url :
    (∀ (store : Store) (event : Event) (resp : Response),
        getAssetFromKV store event ⟨optionsMapRequestToAsset store, DEBUG⟩ = .ok resp →
        (handleEvent store event).headers =
          resp.headers ++
            [("Cache-Control",
              if regexTest event.request.url.href then "public, max-age=31536000, immutable"
              else "must-revalidate")] ++ securityHeaders) ∧
    (mainEvent.request.url.path = "/about" ∧
      ("Cache-Control", "public, max-age=31536000, immutable") ∈
        (handleEvent okStore mainEvent).headers) ∧
    (trailingEvent.request.url.path = "/a/js/" ∧
      ("Cache-Control", "must-revalidate") ∈ (handleEvent okStore trailingEvent).headers ∧
      ("Cache-Control", "public, max-age=31536000, immutable") ∉
        (handleEvent okStore trailingEvent).headers) := by
  refine ⟨?_, ⟨rfl, by decide⟩, ⟨rfl, by decide, by decide⟩⟩
  intro store event resp h
  rw [handleEvent_ok store event resp h, addCustomHeaders_headers]

/-- Claim C9, witness: the universal part applied to the concrete
trailing-slash request served by `okStore` (the regex does not match, so
`must-revalidate` is appended). -/
theorem c9_witness :
    (handleEvent okStore trailingEvent).headers =
      [("Cache-Control", "must-revalidate")] ++ securityHeaders :=
  c9_regex_on_full_url.1 okStore trailingEvent ⟨200, [], "asset-body"⟩ rfl

/-- Claim C10: the DEBUG flag is the compile-time constant `false`, so in the
shipped handler the cache-bypass option is never set (the handler's output is
insensitive to what the store would return for bypassing fetches: stores
agreeing at `bypassCache = false` produce identical responses), the
`/404.html` fallback is attempted on every primary-fetch failure, and the
top-level listener's debug branch is unreachable (a synchronous exception
always yields the generic "Internal Error" 500 response). -/
theorem c10_debug_disabled :
    DEBUG = false ∧
    (∀ (s1 s2 : Store) (event : Event),
        (∀ r : Request, s1.fetch r false = s2.fetch r false) →
        s1.defaultMap = s2.defaultMap →
        handleEvent s1 event = handleEvent s2 event) ∧
    (∀ (store : Store) (event : Event) (e : JsError) (nf : Response),
        getAssetFromKV store event ⟨optionsMapRequestToAsset store, DEBUG⟩ = .error e →
        getAssetFromKV store event ⟨notFoundMapRequestToAsset, false⟩ = .ok nf →
        handleEvent store event = ⟨404, [], nf.body⟩) ∧
    (∀ (store : Store) (event : Event) (e : JsError),
        fetchListener store event (some e) = ⟨500, [], "Internal Error"⟩) := by
  refine ⟨rfl, ?_, ?_, ?_⟩
  · intro s1 s2 event hfetch hmap
    simp only [handleEvent, handleEventG, getAssetFromKV, optionsMapRequestToAsset, DEBUG,
      hmap, hfetch]
  · intro store event e nf h1 h2
    exact handleEvent_err_ok store event e nf h1 h2
  · intro store event e
    simp [fetchListener, DEBUG]

/-- Claim C10, witness: the fallback conjunct applied to the store holding
only `/404.html`, and the bypass-insensitivity conjunct applied to a concrete
store pair. -/
theorem c10_witness :
    handleEvent nfStore plainEvent = ⟨404, [], "custom 404 page"⟩ ∧
    handleEvent errStore mainEvent = handleEvent errStore mainEvent :=
  ⟨c10_debug_disabled.2.2.1 nfStore plainEvent ⟨"could not find asset", "KVError"⟩
      ⟨200, [], "custom 404 page"⟩ rfl rfl,
   c10_debug_disabled.2.1 errStore errStore mainEvent (fun _ => rfl) rfl⟩

end WorkersSite
